import Mathlib

/-!
Verification of the RFQM settlement service (`src/src/services/rfqm_service.ts`)
against its natural-language specification.

The TypeScript source is shallowly embedded: `BigNumber` values are `ℚ` (or `ℕ`
for base-unit token amounts), fallible paths return `Except`, and the external
collaborators (database, queue, maker client, blockchain client) are passed in
as explicit oracle data.  Side effects that the specification talks about
(database writes, the maker sign request, the decline-to-sign price check, the
queue write) are recorded in an ordered effect list.
-/

namespace Rfqm

/-- Job lifecycle statuses, from `entities/types` (the closed enumeration used
throughout `rfqm_service.ts`). -/
inductive RfqmJobStatus
  | PendingEnqueued
  | PendingProcessing
  | PendingLastLookAccepted
  | PendingSubmitted
  | SucceededUnconfirmed
  | SucceededConfirmed
  | FailedRevertedUnconfirmed
  | FailedRevertedConfirmed
  | FailedExpired
  | FailedValidationNoMakerUri
  | FailedValidationNoOrder
  | FailedValidationNoFee
  | FailedValidationNoTakerSignature
  | FailedValidationNoCallData
  | FailedLastLookDeclined
  | FailedSignFailed
  | FailedEthCallFailed
  | FailedSubmitFailed
  | FailedPresignValidationFailed
  deriving DecidableEq, Repr

/-- Transaction submission lifecycle statuses, from `entities/types`. -/
inductive RfqmTransactionSubmissionStatus
  | Presubmit
  | Submitted
  | SucceededUnconfirmed
  | SucceededConfirmed
  | RevertedUnconfirmed
  | RevertedConfirmed
  deriving DecidableEq, Repr

/-- An ECDSA signature as carried on jobs and submissions.  The components are
kept as strings as in the source; their hex content is irrelevant to the claims. -/
structure Signature where
  signatureType : ℕ
  v : ℕ
  r : String
  s : String
  deriving DecidableEq, Repr

/-- The string fields of a stored OtcOrder (`otcOrderToStoredOtcOrder` in
`rfqm_db_utils`).  `expiryAndNonce` is stored as a decimal string; a value of
`none` models a string which does not parse as a number, i.e. one for which
`new BigNumber(s)` is NaN.  Amounts are base-unit integers. -/
structure StoredOtcOrderFields where
  txOrigin : String
  expiryAndNonce : Option ℕ
  maker : String
  taker : String
  makerToken : String
  takerToken : String
  makerAmount : ℕ
  takerAmount : ℕ
  deriving DecidableEq, Repr

/-- A stored OtcOrder; the order fields are nested under `order` as in the
database entity (`job.order.order.taker` in the source). -/
structure StoredOtcOrder where
  order : StoredOtcOrderFields
  deriving DecidableEq, Repr

/-- The stored fee attached to a job (opaque payload; only presence matters to
the claims). -/
structure StoredFee where
  token : String
  amount : ℕ
  feeType : String
  deriving DecidableEq, Repr

/-- The `RfqmV2JobEntity` fields used by `rfqm_service.ts`.  Nullable columns
are `Option`s.  `expiry` is the order expiry in whole seconds. -/
structure RfqmV2JobEntity where
  orderHash : String
  makerUri : Option String
  order : Option StoredOtcOrder
  fee : Option StoredFee
  takerSignature : Option Signature
  makerSignature : Option Signature
  status : RfqmJobStatus
  expiry : ℚ
  isUnwrap : Bool
  affiliateAddress : Option String
  integratorId : Option String
  lastLookResult : Option Bool
  llRejectPriceDifferenceBps : Option ℤ
  workerAddress : Option String
  deriving DecidableEq, Repr

/-- The `RfqmV2TransactionSubmissionEntity` fields used by
`getOrderStatusAsync`: the (nullable) transaction hash, the creation timestamp
in milliseconds, the nonce and the submission status. -/
structure RfqmV2TransactionSubmissionEntity where
  transactionHash : Option String
  createdAtMs : ℤ
  nonce : ℕ
  status : RfqmTransactionSubmissionStatus
  deriving DecidableEq, Repr

/-- Modelled from the spec: `constants.ts` is not under `src/`.  One second is
1000 milliseconds; the spec's grace window is "2 minutes" = `ONE_MINUTE_S * 2`
seconds. -/
def ONE_SECOND_MS : ℚ := 1000

/-- Modelled from the spec: one minute in seconds (`constants.ts` is not under
`src/`). -/
def ONE_MINUTE_S : ℚ := 60

/-- `PRICE_DECIMAL_PLACES` (`rfqm_service.ts` line 160). -/
def PRICE_DECIMAL_PLACES : ℕ := 6

/-- `MAX_PRIORITY_FEE_PER_GAS_CAP` (`rfqm_service.ts` line 162): 128 gwei, "the
maximum tip we're willing to pay". -/
def MAX_PRIORITY_FEE_PER_GAS_CAP : ℚ := 128e9

/-- `MAX_PRIORITY_FEE_PER_GAS_MULTIPLIER` (`rfqm_service.ts` line 164). -/
def MAX_PRIORITY_FEE_PER_GAS_MULTIPLIER : ℚ := 1.5

/-- `MAX_FEE_PER_GAS_MULTIPLIER` (`rfqm_service.ts` line 165). -/
def MAX_FEE_PER_GAS_MULTIPLIER : ℚ := 1.1

/-- Modelled from the spec: `OtcOrder.parseExpiryAndNonce` of
`@0x/protocol-utils` is not under `src/`.  The spec describes a packed
expiry+nonce field whose encoding round-trips: the expiry (in seconds) lives in
the bits above bit 192, the nonce bucket and nonce below.  Decoding therefore
takes the integer quotient by 2^192.  A `none` input models an
`expiryAndNonce` string which does not parse as a number: `new BigNumber(s)`
is then NaN and every derived quantity is NaN, which is propagated as `none`. -/
def parseExpiry (expiryAndNonce : Option ℕ) : Option ℕ :=
  expiryAndNonce.map (fun n => n / 2 ^ 192)

/-- `RfqmService.validateJob` (`rfqm_service.ts` lines 200-229): returns the
first failed precondition, or `none` for a valid job.  The checks appear in
source order: missing maker URI, missing order, missing fee, expiry (where a
NaN decoded expiry or an expiry at or before `nowMs` fails), then missing
taker signature. -/
def validateJob (job : RfqmV2JobEntity) (nowMs : ℕ) : Option RfqmJobStatus :=
  if job.makerUri = none then some .FailedValidationNoMakerUri
  else match job.order with
  | none => some .FailedValidationNoOrder
  | some o =>
    if job.fee = none then some .FailedValidationNoFee
    else
      match parseExpiry o.order.expiryAndNonce with
      | none => some .FailedExpired
      | some expiryS =>
        if expiryS * 1000 ≤ nowMs then some .FailedExpired
        else if job.takerSignature = none then some .FailedValidationNoTakerSignature
        else none

/-- The validation order as the claim states it (maker endpoint, order, fee,
taker signature, and only then expiry); written from the claim's words, to be
compared against `validateJob` from the source. -/
def validateJobClaimOrder (job : RfqmV2JobEntity) (nowMs : ℕ) : Option RfqmJobStatus :=
  if job.makerUri = none then some .FailedValidationNoMakerUri
  else match job.order with
  | none => some .FailedValidationNoOrder
  | some o =>
    if job.fee = none then some .FailedValidationNoFee
    else if job.takerSignature = none then some .FailedValidationNoTakerSignature
    else
      match parseExpiry o.order.expiryAndNonce with
      | none => some .FailedExpired
      | some expiryS =>
        if expiryS * 1000 ≤ nowMs then some .FailedExpired
        else none

/-- Whether the decoded expiry of order `o` fails the `validateJob` expiry
check at time `nowMs` (NaN decodes count as expired, as in the source's
`expiryTimeMs.isNaN() || expiryTimeMs.lte(now.getTime())`). -/
def orderExpiredAt (o : StoredOtcOrder) (nowMs : ℕ) : Bool :=
  match parseExpiry o.order.expiryAndNonce with
  | none => true
  | some expiryS => expiryS * 1000 ≤ nowMs

/-- EIP-1559 gas fee parameters (`GasFees` in `rfqm_service.ts`). -/
structure GasFees where
  maxFeePerGas : ℚ
  maxPriorityFeePerGas : ℚ
  deriving DecidableEq, Repr

/-- The fee escalation computed in the watch loop of `submitJobToChainAsync`
(`rfqm_service.ts` lines 1441-1456): the new priority fee cap is the old one
times `MAX_PRIORITY_FEE_PER_GAS_MULTIPLIER`; the new fee cap is the maximum of
the old fee cap times `MAX_FEE_PER_GAS_MULTIPLIER` and twice the fresh gas
price estimate plus the new priority fee cap. -/
def escalateGasFees (old : GasFees) (newGasPriceEstimate : ℚ) : GasFees :=
  let newMaxPriorityFeePerGas := old.maxPriorityFeePerGas * MAX_PRIORITY_FEE_PER_GAS_MULTIPLIER
  let newMaxFeePerGas :=
    max (old.maxFeePerGas * MAX_FEE_PER_GAS_MULTIPLIER)
      (newGasPriceEstimate * 2 + newMaxPriorityFeePerGas)
  { maxFeePerGas := newMaxFeePerGas, maxPriorityFeePerGas := newMaxPriorityFeePerGas }

/-- The decision taken by one iteration of the watch loop. -/
inductive WatchAction
  | returnStatus (s : RfqmJobStatus)
  | continueWatching
  | resubmit (fees : GasFees)
  | throwNotImplemented
  | throwUnreachable
  deriving DecidableEq, Repr

/-- `_checkSubmissionMapReceiptsAndUpdateDbAsync` (`rfqm_service.ts` lines
1588-1631) reduced to its returned status: with no mined receipt it returns
`PendingSubmitted`; with a receipt it returns the status derived by the
`SubmissionContext` (supplied as an oracle, since `SubmissionContext.ts` is not
under `src/`). -/
def checkSubmissionJobStatus (minedReceiptStatus : Option RfqmJobStatus) : RfqmJobStatus :=
  match minedReceiptStatus with
  | none => .PendingSubmitted
  | some s => s

/-- One iteration of the watch loop of `submitJobToChainAsync`
(`rfqm_service.ts` lines 1399-1513), as a pure decision function.  In the
`PendingSubmitted` case the source checks, in order: more than two minutes past
expiry (give up as expired); past expiry at all (keep watching without
resubmitting); a legacy transaction type (not implemented); the fee ceiling
check `oldMaxFeePerGas >= MAX_PRIORITY_FEE_PER_GAS_CAP` (keep watching); and
otherwise escalates the fees and resubmits. -/
def watchLoopStep (jobStatus : RfqmJobStatus) (expiryS : ℚ) (nowMs : ℚ)
    (oldFees : GasFees) (newGasPriceEstimate : ℚ) (transactionType : ℕ) : WatchAction :=
  match jobStatus with
  | .PendingSubmitted =>
    let nowSeconds : ℚ := nowMs / ONE_SECOND_MS
    let secondsPastExpiration := nowSeconds - expiryS
    if ONE_MINUTE_S * 2 < secondsPastExpiration then .returnStatus .FailedExpired
    else if 0 < secondsPastExpiration then .continueWatching
    else if transactionType = 0 then .throwNotImplemented
    else if MAX_PRIORITY_FEE_PER_GAS_CAP ≤ oldFees.maxFeePerGas then .continueWatching
    else .resubmit (escalateGasFees oldFees newGasPriceEstimate)
  | .FailedRevertedUnconfirmed => .continueWatching
  | .SucceededUnconfirmed => .continueWatching
  | .FailedRevertedConfirmed => .returnStatus .FailedRevertedConfirmed
  | .SucceededConfirmed => .returnStatus .SucceededConfirmed
  | _ => .throwUnreachable

/-- The number of decimal places bignumber.js keeps for results of division
(its default `DECIMAL_PLACES` configuration). -/
def BIGNUMBER_DECIMAL_PLACES : ℕ := 20

/-- The floor of a rational number as an integer, computed directly from the
numerator and denominator. -/
def ratFloor (q : ℚ) : ℤ := q.num / q.den

/-- Rounding to `dp` decimal places, half away from zero (bignumber.js
`ROUND_HALF_UP`, its default rounding mode, applied to division results). -/
def roundHalfUpDp (q : ℚ) (dp : ℕ) : ℚ :=
  if 0 ≤ q then (ratFloor (q * 10 ^ dp + 1 / 2) : ℚ) / 10 ^ dp
  else -((ratFloor (-q * 10 ^ dp + 1 / 2) : ℚ) / 10 ^ dp)

/-- bignumber.js division: the exact quotient rounded to
`BIGNUMBER_DECIMAL_PLACES` decimal places. -/
def bnDiv (a b : ℚ) : ℚ := roundHalfUpDp (a / b) BIGNUMBER_DECIMAL_PLACES

/-- Rounding to `dp` decimal places towards zero (bignumber.js `ROUND_DOWN`,
the mode passed to `decimalPlaces` for the quoted price). -/
def roundDownDp (q : ℚ) (dp : ℕ) : ℚ :=
  if 0 ≤ q then (ratFloor (q * 10 ^ dp) : ℚ) / 10 ^ dp
  else -((ratFloor (-q * 10 ^ dp) : ℚ) / 10 ^ dp)

/-- `Web3Wrapper.toUnitAmount`: divides a base-unit amount by 10^decimals
(a bignumber.js division). -/
def toUnitAmount (amount : ℚ) (decimals : ℕ) : ℚ := bnDiv amount (10 ^ decimals)

/-- The quoted price computation shared by `fetchIndicativeQuoteAsync`
(`rfqm_service.ts` lines 408-414) and `fetchFirmQuoteAsync` (lines 525-531):
unit amounts for both sides, the unit price in the trade direction, and then
`price.decimalPlaces(PRICE_DECIMAL_PLACES + 1, BigNumber.ROUND_DOWN)`. -/
def computeQuotePrice (isSelling : Bool) (makerAmount takerAmount : ℕ)
    (makerTokenDecimals takerTokenDecimals : ℕ) : ℚ :=
  let makerAmountInUnit := toUnitAmount makerAmount makerTokenDecimals
  let takerAmountInUnit := toUnitAmount takerAmount takerTokenDecimals
  let price :=
    if isSelling then bnDiv makerAmountInUnit takerAmountInUnit
    else bnDiv takerAmountInUnit makerAmountInUnit
  roundDownDp price (PRICE_DECIMAL_PLACES + 1)

/-- A transaction as reported by the status endpoint. -/
structure StatusTransaction where
  hash : String
  timestamp : ℤ
  deriving DecidableEq, Repr

/-- The response of the status endpoint: a status string and a transaction
list. -/
structure StatusResponse where
  status : String
  transactions : List StatusTransaction
  deriving DecidableEq, Repr

/-- The errors `getOrderStatusAsync` can throw. -/
inductive OrderStatusError
  /-- "Expected exactly one successful transmission ...; found n". -/
  | wrongSuccessfulCount (n : ℕ)
  /-- "Successful transaction did not have a hash". -/
  | successfulWithoutHash
  /-- The exhaustiveness default branch. -/
  | unreachable
  deriving DecidableEq, Repr

/-- `transformSubmission` inside `getOrderStatusAsync` (`rfqm_service.ts`
lines 639-642): a submission maps to a hash/timestamp pair when it has a hash,
otherwise to null. -/
def transformSubmission (s : RfqmV2TransactionSubmissionEntity) : Option StatusTransaction :=
  s.transactionHash.map (fun h => { hash := h, timestamp := s.createdAtMs })

/-- `transformSubmissions` inside `getOrderStatusAsync` (lines 644-645):
map then drop the nulls. -/
def transformSubmissions (subs : List RfqmV2TransactionSubmissionEntity) : List StatusTransaction :=
  subs.filterMap transformSubmission

/-- Whether a submission has one of the two `Succeeded` statuses (the filter
in the `SucceededConfirmed`/`SucceededUnconfirmed` arm of
`getOrderStatusAsync`, lines 694-698). -/
def isSuccessfulSubmission (s : RfqmV2TransactionSubmissionEntity) : Bool :=
  s.status = RfqmTransactionSubmissionStatus.SucceededUnconfirmed ∨
    s.status = RfqmTransactionSubmissionStatus.SucceededConfirmed

/-- `getOrderStatusAsync` (`rfqm_service.ts` lines 638-718) for a job found in
the database, as a pure function of the job's status and expiry, the current
time and the job's transaction submissions.  Statuses are classified exactly
as by the source's switch; in the succeeded arm the submissions with a
`Succeeded-*` status are filtered out, a count different from one throws, and
a successful submission without a transaction hash throws. -/
def getOrderStatus (status : RfqmJobStatus) (expiryS : ℚ) (nowMs : ℚ)
    (subs : List RfqmV2TransactionSubmissionEntity) : Except OrderStatusError StatusResponse :=
  if status = .PendingEnqueued ∧ expiryS * ONE_SECOND_MS < nowMs then
    .ok { status := "failed", transactions := [] }
  else match status with
  | .PendingEnqueued | .PendingProcessing | .PendingLastLookAccepted =>
    .ok { status := "pending", transactions := [] }
  | .PendingSubmitted =>
    .ok { status := "submitted", transactions := transformSubmissions subs }
  | .FailedEthCallFailed | .FailedExpired | .FailedLastLookDeclined
  | .FailedPresignValidationFailed | .FailedRevertedConfirmed
  | .FailedRevertedUnconfirmed | .FailedSignFailed | .FailedSubmitFailed
  | .FailedValidationNoCallData | .FailedValidationNoFee
  | .FailedValidationNoMakerUri | .FailedValidationNoOrder
  | .FailedValidationNoTakerSignature =>
    .ok { status := "failed", transactions := transformSubmissions subs }
  | .SucceededConfirmed | .SucceededUnconfirmed =>
    match subs.filter isSuccessfulSubmission with
    | [s] =>
      match transformSubmission s with
      | none => .error .successfulWithoutHash
      | some t =>
        .ok { status := if status = .SucceededUnconfirmed then "succeeded" else "confirmed",
              transactions := [t] }
    | l => .error (.wrongSuccessfulCount l.length)

/-- Lower-casing a string, for the `.toLowerCase()` comparisons in the
source. -/
def toLower (s : String) : String := String.mk (s.data.map Char.toLower)

/-- The calldata for the settlement call.  Modelled from the spec: the ABI
encoding in `generateTakerSignedOtcOrderCallData`
(`src/src/utils/rfq_blockchain_utils.ts`) calls the external exchange-proxy
encoder and `serviceUtils.attributeCallData`, neither of which is under
`src/`; the spec fixes calldata construction as deterministic in the fully
signed order, so calldata is modelled as the tuple of encoder inputs. -/
structure CallData where
  order : StoredOtcOrder
  makerSignature : Signature
  takerSignature : Signature
  isUnwrap : Bool
  affiliateAddress : Option String
  deriving DecidableEq, Repr

/-- `generateTakerSignedOtcOrderCallData`: deterministic in its inputs (see
`CallData`). -/
def generateTakerSignedOtcOrderCallData (o : StoredOtcOrder) (makerSig takerSig : Signature)
    (isUnwrap : Bool) (affiliateAddress : Option String) : CallData :=
  { order := o, makerSignature := makerSig, takerSignature := takerSig,
    isUnwrap := isUnwrap, affiliateAddress := affiliateAddress }

/-- Modelled from the spec: `padSignature` (`utils/signature_utils`, not under
`src/`) zero-pads a truncated fixed-width signature component back to its full
width (32 bytes, 64 hex characters). -/
def padSignatureComponent (s : String) : String :=
  String.mk (List.replicate (64 - s.length) '0') ++ s

/-- Modelled from the spec: `padSignature` zero-pads the `r` and `s`
components of a signature. -/
def padSignature (sig : Signature) : Signature :=
  { sig with r := padSignatureComponent sig.r, s := padSignatureComponent sig.s }

/-- The observable side effects of job preparation and order submission that
the specification talks about, in execution order. -/
inductive Effect
  /-- A full-overwrite database update of the job. -/
  | updateJob (j : RfqmV2JobEntity)
  /-- A signature request to the maker's sign endpoint. -/
  | signRequest
  /-- The decline-to-sign price re-check request to the maker's price endpoint. -/
  | priceCheckRequest
  /-- A database insert of a new job. -/
  | writeJob (orderHash : String)
  /-- Enqueueing the job for processing. -/
  | enqueue (orderHash : String)
  deriving DecidableEq, Repr

/-- The outcome of the (retried) maker sign request in `prepareV2JobAsync`:
all attempts threw, or the maker responded without a signature (a decline), or
a signature was returned. -/
inductive SignResult
  | transportFailed
  | declined
  | signed (sig : Signature)
  deriving DecidableEq, Repr

/-- The maker's response to the decline-to-sign price re-check. -/
structure PriceResponse where
  makerAmount : ℚ
  takerAmount : ℚ
  deriving DecidableEq, Repr

/-- The external-collaborator outcomes consumed by one run of
`prepareV2JobAsync`, supplied as oracle data: the job's stored transaction
submissions, the maker/taker token balances, the sign request outcome, the
price re-check outcome (`none` models both a transport failure and an empty
response, both of which throw inside the guarded block), whether the database
update saving the rejection price delta succeeds, the recovered signer of the
maker signature together with the registry's delegation answer
(`getSignerFromHash` of `utils/signature_utils` is not under `src/`), the
rejection delta in bps as computed by the source's string formatting (external
JS numeric-to-string semantics), and the outcome of the retried `eth_call`
validation. -/
structure PrepareEnv where
  transactionSubmissions : List RfqmV2TransactionSubmissionEntity
  makerBalance : ℕ
  takerBalance : ℕ
  signResult : SignResult
  priceCheckResponse : Option PriceResponse
  saveRejectPriceDeltaOk : Bool
  recoveredSigner : String
  isValidOrderSigner : Bool
  rejectDeltaBps : ℤ
  ethCallOk : Bool
  deriving Repr

/-- The errors thrown by `prepareV2JobAsync`. -/
inductive PrepareError
  /-- `storedOtcOrderToOtcOrder` is applied to a null order before any check. -/
  | typeErrorNullOrder
  /-- "Encountered a job with submissions but no maker signature". -/
  | submissionsNoMakerSignature
  /-- "Encountered a job with submissions but no taker signature". -/
  | submissionsNoTakerSignature
  /-- "Job failed validation" (with the status written to the database). -/
  | validationFailed (s : RfqmJobStatus)
  /-- "No taker signature present" (unreachable after validation). -/
  | noTakerSignature
  /-- "Order failed pre-sign validation". -/
  | presignValidationFailed
  /-- "Job failed during market maker sign attempt". -/
  | signFailed
  /-- "Market Maker declined to sign". -/
  | declinedToSign
  /-- "Invalid order signer address". -/
  | invalidOrderSigner
  /-- "Maker signature does not exist" (unreachable). -/
  | noMakerSignature
  /-- "Eth call validation failed". -/
  | ethCallFailed
  deriving DecidableEq, Repr

/-- The `PendingEnqueued → PendingProcessing` transition at the start of job
preparation (`rfqm_service.ts` lines 1007-1010): the job after the transition. -/
def statusTransitionJob (job : RfqmV2JobEntity) : RfqmV2JobEntity :=
  if job.status = .PendingEnqueued then { job with status := .PendingProcessing } else job

/-- The database write performed by the `PendingEnqueued → PendingProcessing`
transition. -/
def statusTransitionEffects (job : RfqmV2JobEntity) : List Effect :=
  if job.status = .PendingEnqueued then
    [Effect.updateJob { job with status := .PendingProcessing }]
  else []

/-- `prepareV2JobAsync` (`rfqm_service.ts` lines 956-1276) as a pure function
of the job, the oracle environment and the evaluation time.  It returns the
result (the calldata and the prepared job, or the thrown error) together with
the ordered list of observable effects.  The control flow follows the source:
null order crashes the stored-order conversion; a job with existing
submissions short-circuits to the calldata (throwing if either signature is
missing); then validation, the `PendingEnqueued → PendingProcessing`
transition, the maker-signature branch (balance check, retried sign request,
decline handling with the guarded price re-check, padding and acceptance),
the signer verification, calldata generation and the retried `eth_call`. -/
def prepareV2Job (job : RfqmV2JobEntity) (env : PrepareEnv) (nowMs : ℕ) :
    Except PrepareError (CallData × RfqmV2JobEntity) × List Effect :=
  match job.order with
  | none => (.error .typeErrorNullOrder, [])
  | some o =>
    if env.transactionSubmissions ≠ [] then
      match job.makerSignature, job.takerSignature with
      | none, _ => (.error .submissionsNoMakerSignature, [])
      | some _, none => (.error .submissionsNoTakerSignature, [])
      | some mk, some tk =>
        (.ok (generateTakerSignedOtcOrderCallData o mk tk job.isUnwrap job.affiliateAddress, job),
          [])
    else
      match validateJob job nowMs with
      | some errorStatus =>
        let j := { job with status := errorStatus }
        (.error (.validationFailed errorStatus), [.updateJob j])
      | none =>
        match job.takerSignature with
        | none => (.error .noTakerSignature, [])
        | some tk =>
          let job1 := statusTransitionJob job
          let effs1 := statusTransitionEffects job
          match job1.makerSignature with
          | some mk =>
            -- Market maker had already signed; skip the sign phase entirely.
            prepareTail o job1 mk tk env effs1
          | none =>
            if env.makerBalance < o.order.makerAmount ∨ env.takerBalance < o.order.takerAmount then
              let j := { job1 with status := RfqmJobStatus.FailedPresignValidationFailed }
              (.error .presignValidationFailed, effs1 ++ [.updateJob j])
            else
              match env.signResult with
              | .transportFailed =>
                let j := { job1 with status := RfqmJobStatus.FailedSignFailed }
                (.error .signFailed, effs1 ++ [.signRequest, .updateJob j])
              | .declined =>
                let jd := { job1 with lastLookResult := some false,
                                      status := RfqmJobStatus.FailedLastLookDeclined }
                let priceCheckEffects :=
                  match env.priceCheckResponse with
                  | none => []
                  | some _ =>
                    if env.saveRejectPriceDeltaOk then
                      [Effect.updateJob
                        { jd with llRejectPriceDifferenceBps := some env.rejectDeltaBps }]
                    else []
                (.error .declinedToSign,
                  effs1 ++ [.signRequest, .updateJob jd, .priceCheckRequest] ++ priceCheckEffects)
              | .signed sig =>
                let padded := padSignature sig
                let j2 := { job1 with makerSignature := some padded,
                                      lastLookResult := some true,
                                      status := RfqmJobStatus.PendingLastLookAccepted }
                prepareTail o j2 padded tk env (effs1 ++ [.signRequest, .updateJob j2])
where
  /-- The tail of `prepareV2JobAsync` after a maker signature is known: signer
  verification, calldata generation and the retried `eth_call` validation. -/
  prepareTail (o : StoredOtcOrder) (j : RfqmV2JobEntity) (mk tk : Signature)
      (env : PrepareEnv) (effs : List Effect) :
      Except PrepareError (CallData × RfqmV2JobEntity) × List Effect :=
    if toLower env.recoveredSigner ≠ toLower o.order.maker ∧ ¬ env.isValidOrderSigner then
      let jf := { j with status := RfqmJobStatus.FailedSignFailed }
      (.error .invalidOrderSigner, effs ++ [.updateJob jf])
    else
      let calldata := generateTakerSignedOtcOrderCallData o mk tk j.isUnwrap j.affiliateAddress
      if env.ethCallOk then (.ok (calldata, j), effs)
      else
        let jf := { j with status := RfqmJobStatus.FailedEthCallFailed }
        (.error .ethCallFailed, effs ++ [.updateJob jf])

/-- A stored quote (`RfqmV2QuoteEntity`) as consulted by
`submitTakerSignedOtcOrderAsync`. -/
structure QuoteEntity where
  orderHash : String
  order : Option StoredOtcOrder
  makerUri : Option String
  integratorId : Option String
  affiliateAddress : Option String
  isUnwrap : Bool
  deriving DecidableEq, Repr

/-- The external-collaborator outcomes consumed by
`submitTakerSignedOtcOrderAsync`: the quote looked up by order hash, the whole
job store (the service queries the jobs in the four pending statuses), the
signer recovered from the taker signature (`getSignerFromHash` is not under
`src/`), the maker and taker token balances, and whether the job insert plus
enqueue succeeds. -/
structure SubmitEnv where
  quote : Option QuoteEntity
  jobs : List RfqmV2JobEntity
  recoveredSigner : String
  makerBalance : ℕ
  takerBalance : ℕ
  writeSucceeds : Bool
  deriving Repr

/-- The errors thrown by `submitTakerSignedOtcOrderAsync`. -/
inductive SubmitError
  /-- `NotFoundError`: "quote not found". -/
  | notFound
  /-- `ValidationError`: "order will expire too soon". -/
  | expiryTooSoon
  /-- `TooManyRequestsError`: "a pending trade for this taker and takertoken
  already exists". -/
  | tooManyRequests
  /-- `ValidationError`: "signature is not valid". -/
  | invalidSignature
  /-- `ValidationError`: "order is not fillable". -/
  | orderNotFillable
  /-- `InternalServerError`: the insert or the enqueue failed. -/
  | internalServerError
  deriving DecidableEq, Repr

/-- The four pending-job statuses queried by
`submitTakerSignedOtcOrderAsync` (lines 775-780). -/
def pendingStatuses : List RfqmJobStatus :=
  [.PendingEnqueued, .PendingProcessing, .PendingLastLookAccepted, .PendingSubmitted]

/-- Whether a job status is one of the four pending statuses. -/
def isPendingStatus (s : RfqmJobStatus) : Bool := s ∈ pendingStatuses

/-- JavaScript `===` on two optionally-absent lower-cased strings:
`undefined === undefined` is true, `undefined === s` is false. -/
def optLowerEq (a b : Option String) : Bool :=
  (a.map toLower) = (b.map toLower)

/-- The predicate of the pending-trade check (lines 782-793): a pending job
with the same (lower-cased) taker and taker token as the stored quote but a
different order hash. -/
def blocksSubmission (quote : QuoteEntity) (j : RfqmV2JobEntity) : Bool :=
  optLowerEq (j.order.map (fun so => so.order.taker)) (quote.order.map (fun so => so.order.taker)) &&
  optLowerEq (j.order.map (fun so => so.order.takerToken))
    (quote.order.map (fun so => so.order.takerToken)) &&
  j.orderHash ≠ quote.orderHash

/-- `submitTakerSignedOtcOrderAsync` (`rfqm_service.ts` lines 744-878) as a
pure function of the submitted order and signature, the oracle environment,
the current time and the configured minimum expiry buffer.  Steps in source
order: quote lookup, expiry window check (a NaN expiry also fails it, since
NaN comparisons are false), the pending-trade check, signature padding and
signer validation, the balance check, and finally the job insert and enqueue.
Returns the result together with the effect list. -/
def submitTakerSignedOtcOrder (order : StoredOtcOrderFields) (env : SubmitEnv)
    (nowMs minExpiryMs : ℕ) : Except SubmitError String × List Effect :=
  match env.quote with
  | none => (.error .notFound, [])
  | some quote =>
    let expiryOk :=
      match parseExpiry order.expiryAndNonce with
      | none => false
      | some e => decide (nowMs + minExpiryMs < e * 1000)
    if expiryOk = false then (.error .expiryTooSoon, [])
    else
      let pendingJobs := env.jobs.filter (fun j => isPendingStatus j.status)
      if pendingJobs.any (blocksSubmission quote) then (.error .tooManyRequests, [])
      else if toLower env.recoveredSigner ≠ toLower order.taker then
        (.error .invalidSignature, [])
      else if env.makerBalance < order.makerAmount ∨ env.takerBalance < order.takerAmount then
        (.error .orderNotFillable, [])
      else if env.writeSucceeds then
        (.ok quote.orderHash, [.writeJob quote.orderHash, .enqueue quote.orderHash])
      else
        (.error .internalServerError, [.writeJob quote.orderHash])

/-! ## Shared lemmas and concrete data -/

theorem ratFloor_eq_floor (q : ℚ) : ratFloor q = ⌊q⌋ := Rat.floor_def.symm

/-- A well-formed stored order used by concrete instances: expiry 2000000000
seconds, packed into the high bits of `expiryAndNonce`. -/
def exOrder : StoredOtcOrder :=
  { order :=
    { txOrigin := "0x00aa"
      expiryAndNonce := some (2000000000 * 2 ^ 192)
      maker := "0xMakerAddr"
      taker := "0xTakerAddr"
      makerToken := "0xMakerToken"
      takerToken := "0xTakerToken"
      makerAmount := 5000
      takerAmount := 3000 } }

/-- A taker signature used by concrete instances. -/
def exTakerSig : Signature :=
  { signatureType := 3, v := 27
    r := String.mk (List.replicate 64 'a'), s := String.mk (List.replicate 64 'b') }

/-- A maker signature used by concrete instances. -/
def exMakerSig : Signature :=
  { signatureType := 3, v := 28
    r := String.mk (List.replicate 64 'c'), s := String.mk (List.replicate 64 'd') }

/-- A well-formed job used by concrete instances. -/
def exJob : RfqmV2JobEntity :=
  { orderHash := "0xhash1"
    makerUri := some "https://maker.example"
    order := some exOrder
    fee := some { token := "0xFeeToken", amount := 100, feeType := "fixed" }
    takerSignature := some exTakerSig
    makerSignature := none
    status := .PendingEnqueued
    expiry := 2000000000
    isUnwrap := false
    affiliateAddress := none
    integratorId := some "integrator-1"
    lastLookResult := none
    llRejectPriceDifferenceBps := none
    workerAddress := none }

/-! ## C4: validateJob returns the first violated precondition -/

/-- A job that is both expired and missing its taker signature: it
distinguishes the source's check order from the claim's. -/
def c4Job : RfqmV2JobEntity :=
  { exJob with
    takerSignature := none
    order := some { order := { exOrder.order with expiryAndNonce := some (600 * 2 ^ 192) } } }

/-- C4 counterexample: on a job whose decoded expiry (600 s) is past and whose
taker signature is missing, `validateJob` returns `FailedExpired`, while the
claim's order of checks (taker signature before expiry) yields
`FailedValidationNoTakerSignature`: the source checks expiry before the taker
signature. -/
theorem validateJob_order_counterexample :
    validateJob c4Job 1000000 = some .FailedExpired ∧
      validateJobClaimOrder c4Job 1000000 = some .FailedValidationNoTakerSignature ∧
      validateJob c4Job 1000000 ≠ validateJobClaimOrder c4Job 1000000 := by
  refine ⟨by decide, by decide, by decide⟩

/-- C4 (amended): `validateJob` is pure and returns the first violated
precondition in the source's order — missing maker endpoint, missing order,
missing fee, decoded expiry at or before the evaluation time (a malformed
field counts as expired), then missing taker signature — and returns `none`
exactly when none of these preconditions is violated.  In particular a job
with well-formed fields whose decoded expiry has passed yields
`FailedExpired`. -/
theorem validateJob_first_violated (job : RfqmV2JobEntity) (nowMs : ℕ) :
    (job.makerUri = none → validateJob job nowMs = some .FailedValidationNoMakerUri) ∧
    (job.makerUri ≠ none → job.order = none →
      validateJob job nowMs = some .FailedValidationNoOrder) ∧
    (∀ o, job.makerUri ≠ none → job.order = some o → job.fee = none →
      validateJob job nowMs = some .FailedValidationNoFee) ∧
    (∀ o, job.makerUri ≠ none → job.order = some o → job.fee ≠ none →
      orderExpiredAt o nowMs = true → validateJob job nowMs = some .FailedExpired) ∧
    (∀ o, job.makerUri ≠ none → job.order = some o → job.fee ≠ none →
      orderExpiredAt o nowMs = false → job.takerSignature = none →
      validateJob job nowMs = some .FailedValidationNoTakerSignature) ∧
    (validateJob job nowMs = none ↔
      job.makerUri ≠ none ∧
        (∃ o, job.order = some o ∧ orderExpiredAt o nowMs = false) ∧
        job.fee ≠ none ∧ job.takerSignature ≠ none) := by
  refine ⟨?_, ?_, ?_, ?_, ?_, ?_⟩
  · intro h
    simp [validateJob, h]
  · intro h1 h2
    simp [validateJob, h1, h2]
  · intro o h1 h2 h3
    simp [validateJob, h1, h2, h3]
  · intro o h1 h2 h3 h4
    rcases hp : parseExpiry o.order.expiryAndNonce with _ | e
    · simp [validateJob, h1, h2, h3, hp]
    · have he : e * 1000 ≤ nowMs := by
        simpa [orderExpiredAt, hp] using h4
      simp [validateJob, h1, h2, h3, hp, he]
  · intro o h1 h2 h3 h4 h5
    rcases hp : parseExpiry o.order.expiryAndNonce with _ | e
    · simp [orderExpiredAt, hp] at h4
    · have he : ¬ e * 1000 ≤ nowMs := by
        simpa [orderExpiredAt, hp] using h4
      simp [validateJob, h1, h2, h3, hp, he, h5]
  · constructor
    · intro h
      by_cases h1 : job.makerUri = none
      · simp [validateJob, h1] at h
      · rcases ho : job.order with _ | o
        · simp [validateJob, h1, ho] at h
        · by_cases h3 : job.fee = none
          · simp [validateJob, h1, ho, h3] at h
          · rcases hp : parseExpiry o.order.expiryAndNonce with _ | e
            · simp [validateJob, h1, ho, h3, hp] at h
            · by_cases he : e * 1000 ≤ nowMs
              · simp [validateJob, h1, ho, h3, hp, he] at h
              · by_cases h5 : job.takerSignature = none
                · simp [validateJob, h1, ho, h3, hp, he, h5] at h
                · exact ⟨h1, ⟨o, rfl, by simp [orderExpiredAt, hp, he]⟩, h3, h5⟩
    · rintro ⟨h1, ⟨o, ho, hexp⟩, h3, h5⟩
      rcases hp : parseExpiry o.order.expiryAndNonce with _ | e
      · simp [orderExpiredAt, hp] at hexp
      · have he : ¬ e * 1000 ≤ nowMs := by
          simpa [orderExpiredAt, hp] using hexp
        simp [validateJob, h1, ho, h3, hp, he, h5]

/-- C4 witness: the amended theorem applied to the concrete expired job
`c4Job`, whose maker URI, order and fee are present and whose decoded expiry
has passed. -/
theorem validateJob_first_violated_witness :
    validateJob c4Job 1000000 = some .FailedExpired :=
  (validateJob_first_violated c4Job 1000000).2.2.2.1
    { order := { exOrder.order with expiryAndNonce := some (600 * 2 ^ 192) } }
    (by decide) (by decide) (by decide) (by decide)

/-! ## C10: a malformed expiryAndNonce is reported as FailedExpired -/

/-- C10: for any job whose maker URI, order and fee are present but whose
packed `expiryAndNonce` field does not parse as a number (the decoded value is
NaN), `validateJob` reports `FailedExpired` — not a distinct status and not an
exception. -/
theorem validateJob_nan_expiry (job : RfqmV2JobEntity) (o : StoredOtcOrder) (nowMs : ℕ)
    (h1 : job.makerUri ≠ none) (h2 : job.order = some o) (h3 : job.fee ≠ none)
    (h4 : o.order.expiryAndNonce = none) :
    validateJob job nowMs = some .FailedExpired := by
  simp [validateJob, h1, h2, h3, parseExpiry, h4]

/-- C10 witness: a concrete job whose `expiryAndNonce` is not a number. -/
theorem validateJob_nan_expiry_witness :
    validateJob
      { exJob with order := some { order := { exOrder.order with expiryAndNonce := none } } }
      1000000 = some .FailedExpired :=
  validateJob_nan_expiry _ { order := { exOrder.order with expiryAndNonce := none } } 1000000
    (by decide) (by decide) (by decide) (by decide)

/-! ## C2: fee escalation formulas -/

/-- C2: whenever a watch-loop iteration escalates and resubmits, the new
priority fee cap is exactly 1.5 times the previous one, the new fee cap is
exactly the maximum of 1.1 times the previous fee cap and twice the fresh gas
price estimate plus the new priority fee cap; hence the new priority fee cap
is at least 1.5 times the old and the new fee cap at least 1.1 times the
old. -/
theorem watchLoop_escalation (jobStatus : RfqmJobStatus) (expiryS nowMs : ℚ)
    (old : GasFees) (newGasPriceEstimate : ℚ) (transactionType : ℕ) (f : GasFees)
    (h : watchLoopStep jobStatus expiryS nowMs old newGasPriceEstimate transactionType =
      .resubmit f) :
    f.maxPriorityFeePerGas = old.maxPriorityFeePerGas * 1.5 ∧
    f.maxFeePerGas =
      max (old.maxFeePerGas * 1.1) (newGasPriceEstimate * 2 + f.maxPriorityFeePerGas) ∧
    old.maxPriorityFeePerGas * 1.5 ≤ f.maxPriorityFeePerGas ∧
    old.maxFeePerGas * 1.1 ≤ f.maxFeePerGas := by
  cases jobStatus <;> simp [watchLoopStep] at h
  split_ifs at h
  injection h with h
  subst h
  refine ⟨?_, ?_, ?_, ?_⟩
  · simp [escalateGasFees, MAX_PRIORITY_FEE_PER_GAS_MULTIPLIER]
  · simp [escalateGasFees, MAX_PRIORITY_FEE_PER_GAS_MULTIPLIER, MAX_FEE_PER_GAS_MULTIPLIER]
  · simp [escalateGasFees, MAX_PRIORITY_FEE_PER_GAS_MULTIPLIER]
  · simp only [escalateGasFees, MAX_FEE_PER_GAS_MULTIPLIER]
    exact le_max_left _ _

/-- C2 witness: a concrete escalating iteration; the old fees are
(fee cap 100, priority cap 10) and the fresh estimate 50, so the new fees are
(fee cap 115, priority cap 15). -/
theorem watchLoop_escalation_witness :
    (⟨115, 15⟩ : GasFees).maxPriorityFeePerGas =
        (⟨100, 10⟩ : GasFees).maxPriorityFeePerGas * 1.5 ∧
      (⟨115, 15⟩ : GasFees).maxFeePerGas =
        max ((⟨100, 10⟩ : GasFees).maxFeePerGas * 1.1)
          ((50 : ℚ) * 2 + (⟨115, 15⟩ : GasFees).maxPriorityFeePerGas) ∧
      (⟨100, 10⟩ : GasFees).maxPriorityFeePerGas * 1.5 ≤
        (⟨115, 15⟩ : GasFees).maxPriorityFeePerGas ∧
      (⟨100, 10⟩ : GasFees).maxFeePerGas * 1.1 ≤ (⟨115, 15⟩ : GasFees).maxFeePerGas :=
  watchLoop_escalation .PendingSubmitted 100 0 ⟨100, 10⟩ 50 2 ⟨115, 15⟩ (by
    simp [watchLoopStep, escalateGasFees, ONE_SECOND_MS, ONE_MINUTE_S,
      MAX_PRIORITY_FEE_PER_GAS_CAP, MAX_PRIORITY_FEE_PER_GAS_MULTIPLIER,
      MAX_FEE_PER_GAS_MULTIPLIER]
    norm_num)

/-! ## C3: the escalation stop condition -/

/-- C3: the source stops escalating based on the *fee cap*, not the priority
fee cap.  Concretely, with the latest submission at fee cap 200 gwei and
priority fee cap 2 gwei — the priority fee cap strictly below
`MAX_PRIORITY_FEE_PER_GAS_CAP` (128 gwei) — and the order far from expiry, the
watch loop continues watching without submitting a new transaction, whereas
the claim requires an escalated resubmission whenever the priority fee cap is
below the ceiling. -/
theorem watchLoop_cap_checks_fee_cap :
    watchLoopStep .PendingSubmitted 1000000000 0
        ⟨200000000000, 2000000000⟩ 30000000000 2 = .continueWatching ∧
      (⟨200000000000, 2000000000⟩ : GasFees).maxPriorityFeePerGas <
        MAX_PRIORITY_FEE_PER_GAS_CAP := by
  constructor
  · simp [watchLoopStep, ONE_SECOND_MS, ONE_MINUTE_S, MAX_PRIORITY_FEE_PER_GAS_CAP]
    norm_num
  · norm_num [MAX_PRIORITY_FEE_PER_GAS_CAP]

/-! ## C5: expiry handling in the watch loop -/

/-- C5: in a watch-loop iteration without a mined receipt, if the current time
exceeds the order's expiry by more than 120 seconds the loop returns
`FailedExpired`; if it exceeds it by a positive amount of at most 120 seconds
the loop keeps watching without submitting; and a fee-escalating resubmission
only ever happens when the expiry has not yet passed. -/
theorem watchLoop_expiry_handling (expiryS nowMs : ℚ) (old : GasFees)
    (newGasPriceEstimate : ℚ) (transactionType : ℕ) :
    ((120 : ℚ) < nowMs / ONE_SECOND_MS - expiryS →
      watchLoopStep (checkSubmissionJobStatus none) expiryS nowMs old newGasPriceEstimate
        transactionType = .returnStatus .FailedExpired) ∧
    (0 < nowMs / ONE_SECOND_MS - expiryS → nowMs / ONE_SECOND_MS - expiryS ≤ 120 →
      watchLoopStep (checkSubmissionJobStatus none) expiryS nowMs old newGasPriceEstimate
        transactionType = .continueWatching) ∧
    (∀ f, watchLoopStep (checkSubmissionJobStatus none) expiryS nowMs old newGasPriceEstimate
        transactionType = .resubmit f → nowMs / ONE_SECOND_MS - expiryS ≤ 0) := by
  have h120 : ONE_MINUTE_S * 2 = (120 : ℚ) := by norm_num [ONE_MINUTE_S]
  refine ⟨?_, ?_, ?_⟩
  · intro h
    simp only [checkSubmissionJobStatus, watchLoopStep]
    rw [if_pos (by rw [h120]; exact h)]
  · intro h1 h2
    simp only [checkSubmissionJobStatus, watchLoopStep]
    rw [if_neg (by rw [h120]; exact not_lt.mpr h2), if_pos h1]
  · intro f h
    by_contra hc
    push_neg at hc
    simp only [checkSubmissionJobStatus, watchLoopStep] at h
    by_cases h1 : ONE_MINUTE_S * 2 < nowMs / ONE_SECOND_MS - expiryS
    · rw [if_pos h1] at h
      exact WatchAction.noConfusion h
    · rw [if_neg h1, if_pos hc] at h
      exact WatchAction.noConfusion h

/-- C5 witness: 130 seconds past expiry (more than the 120-second grace
window) with no receipt returns `FailedExpired`. -/
theorem watchLoop_expiry_handling_witness :
    watchLoopStep (checkSubmissionJobStatus none) 100 230000 ⟨1, 1⟩ 1 2 =
      .returnStatus .FailedExpired :=
  (watchLoop_expiry_handling 100 230000 ⟨1, 1⟩ 1 2).1 (by norm_num [ONE_SECOND_MS])

/-! ## C8: price rounding precision -/

/-- C8: evaluating the price pipeline at a sell of 10^7 base units quoted at
12345678 base units (both tokens with 0 decimals), the raw unit price is
exactly 1.2345678 and the returned price keeps all seven decimal places —
`decimalPlaces(PRICE_DECIMAL_PLACES + 1, ROUND_DOWN)` rounds to 7 places, not
to the 6 places the code comment and the claim describe, which would give
1.234567. -/
theorem computeQuotePrice_keeps_seven_places :
    computeQuotePrice true 12345678 10000000 0 0 = 12345678 / 10000000 ∧
      roundDownDp (12345678 / 10000000 : ℚ) PRICE_DECIMAL_PLACES = 1234567 / 1000000 ∧
      (12345678 / 10000000 : ℚ) ≠ 1234567 / 1000000 := by
  refine ⟨?_, ?_, by norm_num⟩
  · simp only [computeQuotePrice, toUnitAmount, bnDiv, roundHalfUpDp, roundDownDp,
      ratFloor_eq_floor, PRICE_DECIMAL_PLACES, BIGNUMBER_DECIMAL_PLACES]
    norm_num
  · simp only [roundDownDp, ratFloor_eq_floor, PRICE_DECIMAL_PLACES]
    norm_num

/-! ## C1: the status endpoint for succeeded jobs -/

/-- A submission list with exactly one `Succeeded-*` submission, which however
has no transaction hash. -/
def c1HashlessSubs : List RfqmV2TransactionSubmissionEntity :=
  [{ transactionHash := none, createdAtMs := 0, nonce := 7, status := .SucceededConfirmed }]

/-- C1 counterexample: with exactly one submission in a `Succeeded-*` status
but with a null transaction hash, `getOrderStatusAsync` on a
`SucceededConfirmed` job throws ("Successful transaction did not have a
hash") instead of returning exactly one transaction as the claim states. -/
theorem getOrderStatus_one_successful_but_hashless :
    (c1HashlessSubs.filter isSuccessfulSubmission).length = 1 ∧
      getOrderStatus .SucceededConfirmed 2000000000 1000000 c1HashlessSubs =
        .error .successfulWithoutHash := by
  constructor
  · decide
  · simp only [getOrderStatus]
    rw [if_neg (by simp)]
    rfl

/-- C1 (amended): for a job in a `Succeeded-*` status, `getOrderStatusAsync`
returns exactly one transaction when exactly one of the job's submissions has
a `Succeeded-*` status and that submission carries a transaction hash, and it
throws whenever the number of submissions with a `Succeeded-*` status is not
exactly one (it also throws when the single successful submission has no
hash, per the counterexample). -/
theorem getOrderStatus_succeeded (status : RfqmJobStatus) (expiryS nowMs : ℚ)
    (subs : List RfqmV2TransactionSubmissionEntity)
    (hs : status = .SucceededConfirmed ∨ status = .SucceededUnconfirmed) :
    (∀ s t, subs.filter isSuccessfulSubmission = [s] → transformSubmission s = some t →
      getOrderStatus status expiryS nowMs subs =
        .ok { status := if status = .SucceededUnconfirmed then "succeeded" else "confirmed",
              transactions := [t] }) ∧
    ((subs.filter isSuccessfulSubmission).length ≠ 1 →
      getOrderStatus status expiryS nowMs subs =
        .error (.wrongSuccessfulCount (subs.filter isSuccessfulSubmission).length)) := by
  rcases hs with rfl | rfl <;>
    refine ⟨?_, ?_⟩
  · intro s t h1 h2
    simp only [getOrderStatus]
    rw [if_neg (by simp)]
    simp [h1, h2]
  · intro hlen
    simp only [getOrderStatus]
    rw [if_neg (by simp)]
    rcases hfil : subs.filter isSuccessfulSubmission with _ | ⟨a, _ | ⟨b, l⟩⟩
    · rfl
    · rw [hfil] at hlen
      simp at hlen
    · rfl
  · intro s t h1 h2
    simp only [getOrderStatus]
    rw [if_neg (by simp)]
    simp [h1, h2]
  · intro hlen
    simp only [getOrderStatus]
    rw [if_neg (by simp)]
    rcases hfil : subs.filter isSuccessfulSubmission with _ | ⟨a, _ | ⟨b, l⟩⟩
    · rfl
    · rw [hfil] at hlen
      simp at hlen
    · rfl

/-- A submission list with exactly one `Succeeded-*` submission carrying a
transaction hash, next to a plain replaced submission. -/
def c1GoodSubs : List RfqmV2TransactionSubmissionEntity :=
  [{ transactionHash := some "0xtx1", createdAtMs := 5, nonce := 7, status := .SucceededConfirmed },
   { transactionHash := some "0xtx0", createdAtMs := 1, nonce := 7, status := .Submitted }]

/-- C1 witness: the single successful hashed submission of `c1GoodSubs` is
returned as the unique transaction of a confirmed job. -/
theorem getOrderStatus_succeeded_witness :
    getOrderStatus .SucceededConfirmed 2000000000 1000000 c1GoodSubs =
      .ok { status := "confirmed", transactions := [{ hash := "0xtx1", timestamp := 5 }] } := by
  simpa using
    (getOrderStatus_succeeded .SucceededConfirmed 2000000000 1000000 c1GoodSubs
      (Or.inl rfl)).1
      { transactionHash := some "0xtx1", createdAtMs := 5, nonce := 7, status := .SucceededConfirmed }
      { hash := "0xtx1", timestamp := 5 } (by decide) (by decide)

/-! ## C9: the pending-trade check -/

theorem blocksSubmission_iff (quote : QuoteEntity) (qo : StoredOtcOrder)
    (hqo : quote.order = some qo) (j : RfqmV2JobEntity) :
    blocksSubmission quote j = true ↔
      ∃ jo, j.order = some jo ∧ toLower jo.order.taker = toLower qo.order.taker ∧
        toLower jo.order.takerToken = toLower qo.order.takerToken ∧
        j.orderHash ≠ quote.orderHash := by
  cases hjo : j.order with
  | none => simp [blocksSubmission, optLowerEq, hqo, hjo]
  | some jo =>
    simp only [blocksSubmission, optLowerEq, hqo, hjo, Option.map_some', Option.some.injEq,
      Bool.and_eq_true, decide_eq_true_eq, ne_eq, Option.some.injEq]
    constructor
    · rintro ⟨⟨h1, h2⟩, h3⟩
      exact ⟨jo, rfl, h1, h2, h3⟩
    · rintro ⟨jo', hjo', h1, h2, h3⟩
      cases hjo'
      exact ⟨⟨h1, h2⟩, h3⟩

/-- C9: past the quote lookup and the expiry-window check,
`submitTakerSignedOtcOrderAsync` throws `TooManyRequestsError` exactly when
some job in a pending status has an order with the same taker address and the
same taker token (case-insensitively) as the stored quote but a different
order hash — so resubmitting the same order hash is not blocked — and when it
throws this error no job has been written and nothing has been enqueued. -/
theorem submit_pending_trade_check (order : StoredOtcOrderFields) (env : SubmitEnv)
    (nowMs minExpiryMs : ℕ) (quote : QuoteEntity) (qo : StoredOtcOrder) (e : ℕ)
    (hq : env.quote = some quote) (hqo : quote.order = some qo)
    (he : parseExpiry order.expiryAndNonce = some e)
    (hexp : nowMs + minExpiryMs < e * 1000) :
    ((submitTakerSignedOtcOrder order env nowMs minExpiryMs).1 =
        .error .tooManyRequests ↔
      ∃ j ∈ env.jobs, j.status ∈ pendingStatuses ∧
        ∃ jo, j.order = some jo ∧
          toLower jo.order.taker = toLower qo.order.taker ∧
          toLower jo.order.takerToken = toLower qo.order.takerToken ∧
          j.orderHash ≠ quote.orderHash) ∧
    ((submitTakerSignedOtcOrder order env nowMs minExpiryMs).1 =
        .error .tooManyRequests →
      (submitTakerSignedOtcOrder order env nowMs minExpiryMs).2 = []) := by
  have hany :
      (env.jobs.filter (fun j => isPendingStatus j.status)).any (blocksSubmission quote) =
          true ↔
        ∃ j ∈ env.jobs, j.status ∈ pendingStatuses ∧
          ∃ jo, j.order = some jo ∧
            toLower jo.order.taker = toLower qo.order.taker ∧
            toLower jo.order.takerToken = toLower qo.order.takerToken ∧
            j.orderHash ≠ quote.orderHash := by
    rw [List.any_eq_true]
    constructor
    · rintro ⟨j, hj, hb⟩
      rw [List.mem_filter] at hj
      exact ⟨j, hj.1, by simpa [isPendingStatus] using hj.2,
        (blocksSubmission_iff quote qo hqo j).mp hb⟩
    · rintro ⟨j, hj, hst, hrest⟩
      exact ⟨j, List.mem_filter.mpr ⟨hj, by simpa [isPendingStatus] using hst⟩,
        (blocksSubmission_iff quote qo hqo j).mpr hrest⟩
  by_cases hb :
      (env.jobs.filter (fun j => isPendingStatus j.status)).any (blocksSubmission quote) = true
  · constructor
    · rw [← hany]
      simp [submitTakerSignedOtcOrder, hq, he, hexp, hb]
    · intro _
      simp [submitTakerSignedOtcOrder, hq, he, hexp, hb]
  · have hres : (submitTakerSignedOtcOrder order env nowMs minExpiryMs).1 ≠
        .error .tooManyRequests := by
      simp only [submitTakerSignedOtcOrder, hq, he]
      rw [if_neg (by simp [hexp])]
      rw [if_neg (by simp [hb])]
      split_ifs <;> simp
    constructor
    · rw [← hany]
      simp [hres, hb]
    · intro h
      exact absurd h hres

/-- A pending job (same taker and taker token as `exOrder`, different hash)
that blocks a new submission. -/
def c9BlockingJob : RfqmV2JobEntity :=
  { exJob with
    orderHash := "0xhash2"
    status := .PendingSubmitted
    order := some { order := { exOrder.order with maker := "0xOtherMaker" } } }

/-- The stored quote for `exOrder`. -/
def c9Quote : QuoteEntity :=
  { orderHash := "0xhash1", order := some exOrder, makerUri := some "https://maker.example",
    integratorId := some "integrator-1", affiliateAddress := none, isUnwrap := false }

/-- The submit-time environment with the blocking job `c9BlockingJob` in the
store. -/
def c9Env : SubmitEnv :=
  { quote := some c9Quote, jobs := [c9BlockingJob], recoveredSigner := "0xTakerAddr",
    makerBalance := 100000, takerBalance := 100000, writeSucceeds := true }

/-- C9 witness: the check applied at a concrete pending job with the same
taker and taker token but a different hash: the submission throws
`TooManyRequestsError`. -/
theorem submit_pending_trade_check_witness :
    (submitTakerSignedOtcOrder exOrder.order c9Env 1000000 60000).1 =
      .error .tooManyRequests :=
  (submit_pending_trade_check exOrder.order c9Env 1000000 60000 c9Quote exOrder 2000000000
      rfl rfl (by decide) (by decide)).1.mpr
    ⟨c9BlockingJob, by decide, by decide,
      { order := { exOrder.order with maker := "0xOtherMaker" } }, rfl, rfl, rfl, by decide⟩

/-! ## Helper lemmas for job preparation -/

theorem statusTransitionJob_order (job : RfqmV2JobEntity) :
    (statusTransitionJob job).order = job.order := by
  unfold statusTransitionJob
  split_ifs <;> rfl

theorem statusTransitionJob_makerSignature (job : RfqmV2JobEntity) :
    (statusTransitionJob job).makerSignature = job.makerSignature := by
  unfold statusTransitionJob
  split_ifs <;> rfl

theorem statusTransitionJob_takerSignature (job : RfqmV2JobEntity) :
    (statusTransitionJob job).takerSignature = job.takerSignature := by
  unfold statusTransitionJob
  split_ifs <;> rfl

theorem statusTransitionJob_isUnwrap (job : RfqmV2JobEntity) :
    (statusTransitionJob job).isUnwrap = job.isUnwrap := by
  unfold statusTransitionJob
  split_ifs <;> rfl

theorem statusTransitionJob_affiliateAddress (job : RfqmV2JobEntity) :
    (statusTransitionJob job).affiliateAddress = job.affiliateAddress := by
  unfold statusTransitionJob
  split_ifs <;> rfl

theorem statusTransitionEffects_no_sign (job : RfqmV2JobEntity) :
    Effect.signRequest ∉ statusTransitionEffects job := by
  unfold statusTransitionEffects
  split_ifs <;> simp

theorem prepareTail_ok (o : StoredOtcOrder) (j : RfqmV2JobEntity) (mk tk : Signature)
    (env : PrepareEnv) (effs : List Effect) (cd : CallData) (j1 : RfqmV2JobEntity)
    (effs' : List Effect)
    (h : prepareV2Job.prepareTail o j mk tk env effs = (.ok (cd, j1), effs')) :
    j1 = j ∧ cd = generateTakerSignedOtcOrderCallData o mk tk j.isUnwrap j.affiliateAddress ∧
      effs' = effs := by
  unfold prepareV2Job.prepareTail at h
  split_ifs at h
  · simp at h
  · simp only [Prod.mk.injEq, Except.ok.injEq] at h
    obtain ⟨⟨hcd, hj⟩, he⟩ := h
    exact ⟨hj.symm, hcd.symm, he.symm⟩
  · simp at h

theorem prepareTail_no_sign (o : StoredOtcOrder) (j : RfqmV2JobEntity) (mk tk : Signature)
    (env : PrepareEnv) (effs : List Effect) (h : Effect.signRequest ∉ effs) :
    Effect.signRequest ∉ (prepareV2Job.prepareTail o j mk tk env effs).2 := by
  unfold prepareV2Job.prepareTail
  split_ifs <;> simp [h]

theorem prepare_with_submissions (job : RfqmV2JobEntity) (env : PrepareEnv) (nowMs : ℕ)
    (o : StoredOtcOrder) (mk tk : Signature) (ho : job.order = some o)
    (hmk : job.makerSignature = some mk) (htk : job.takerSignature = some tk)
    (hsub : env.transactionSubmissions ≠ []) :
    prepareV2Job job env nowMs =
      (.ok (generateTakerSignedOtcOrderCallData o mk tk job.isUnwrap job.affiliateAddress, job),
        []) := by
  simp only [prepareV2Job, ho]
  rw [if_pos hsub]
  simp only [hmk, htk]

theorem prepare_ok_shape (job : RfqmV2JobEntity) (env : PrepareEnv) (nowMs : ℕ)
    (cd : CallData) (j1 : RfqmV2JobEntity) (effs : List Effect)
    (h : prepareV2Job job env nowMs = (.ok (cd, j1), effs)) :
    ∃ o mk tk, j1.order = some o ∧ j1.makerSignature = some mk ∧
      j1.takerSignature = some tk ∧
      cd = generateTakerSignedOtcOrderCallData o mk tk j1.isUnwrap j1.affiliateAddress := by
  rcases ho : job.order with _ | o
  · simp [prepareV2Job, ho] at h
  simp only [prepareV2Job, ho] at h
  by_cases hsub : env.transactionSubmissions ≠ []
  · rw [if_pos hsub] at h
    rcases hmk : job.makerSignature with _ | mk
    · simp [hmk] at h
    rcases htk : job.takerSignature with _ | tk
    · simp [hmk, htk] at h
    simp only [hmk, htk, Prod.mk.injEq, Except.ok.injEq] at h
    obtain ⟨⟨hcd, hj⟩, _⟩ := h
    subst hj
    exact ⟨o, mk, tk, ho, hmk, htk, hcd.symm⟩
  · rw [if_neg hsub] at h
    rcases hv : validateJob job nowMs with _ | s
    swap
    · simp [hv] at h
    simp only [hv] at h
    rcases htk : job.takerSignature with _ | tk
    · simp [htk] at h
    simp only [htk] at h
    rcases hmk : (statusTransitionJob job).makerSignature with _ | mk
    · -- the sign phase
      simp only [hmk] at h
      by_cases hbal : env.makerBalance < o.order.makerAmount ∨
          env.takerBalance < o.order.takerAmount
      · rw [if_pos hbal] at h
        simp at h
      · rw [if_neg hbal] at h
        rcases hsr : env.signResult with _ | _ | sig
        · simp [hsr] at h
        · simp [hsr] at h
        · simp only [hsr] at h
          obtain ⟨hj, hcd, _⟩ := prepareTail_ok _ _ _ _ _ _ _ _ _ h
          subst hj
          refine ⟨o, padSignature sig, tk, ?_, ?_, ?_, ?_⟩
          · simpa [statusTransitionJob_order] using ho
          · rfl
          · simpa [statusTransitionJob_takerSignature] using htk
          · simpa using hcd
    · -- maker already signed
      simp only [hmk] at h
      obtain ⟨hj, hcd, _⟩ := prepareTail_ok _ _ _ _ _ _ _ _ _ h
      subst hj
      refine ⟨o, mk, tk, ?_, hmk, ?_, hcd⟩
      · simpa [statusTransitionJob_order] using ho
      · simpa [statusTransitionJob_takerSignature] using htk

/-! ## C7: idempotent preparation -/

/-- C7: (1) if a preparation run succeeds with calldata `cd` and prepared job
`job1`, then running preparation again on `job1` once transaction submissions
exist returns exactly the same calldata and the unchanged job while producing
no effects at all — in particular no new maker sign request and no status or
signature change; (2) whenever a job already holds a maker signature, no run
of preparation ever issues a sign request. -/
theorem prepareV2Job_idempotent :
    (∀ job env nowMs env' nowMs' cd job1 effs,
      prepareV2Job job env nowMs = (.ok (cd, job1), effs) →
      env'.transactionSubmissions ≠ [] →
      prepareV2Job job1 env' nowMs' = (.ok (cd, job1), [])) ∧
    (∀ job env nowMs, job.makerSignature ≠ none →
      Effect.signRequest ∉ (prepareV2Job job env nowMs).2) := by
  constructor
  · intro job env nowMs env' nowMs' cd job1 effs h hsub
    obtain ⟨o, mk, tk, ho, hmk, htk, hcd⟩ := prepare_ok_shape job env nowMs cd job1 effs h
    rw [prepare_with_submissions job1 env' nowMs' o mk tk ho hmk htk hsub, hcd]
  · intro job env nowMs hmk
    rcases ho : job.order with _ | o
    · simp [prepareV2Job, ho]
    simp only [prepareV2Job, ho]
    by_cases hsub : env.transactionSubmissions ≠ []
    · rw [if_pos hsub]
      rcases hm : job.makerSignature with _ | mk
      · exact absurd hm hmk
      rcases htk : job.takerSignature with _ | tk
      · simp
      · simp
    · rw [if_neg hsub]
      rcases hv : validateJob job nowMs with _ | s
      swap
      · simp
      rcases htk : job.takerSignature with _ | tk
      · simp
      rcases hm : job.makerSignature with _ | mk
      · exact absurd hm hmk
      have hm1 : (statusTransitionJob job).makerSignature = some mk := by
        rw [statusTransitionJob_makerSignature, hm]
      simp only [hm1]
      exact prepareTail_no_sign _ _ _ _ _ _ (statusTransitionEffects_no_sign job)

/-- A first-run preparation environment: no prior submissions, sufficient
balances, a maker that signs, a matching recovered signer, and a passing
`eth_call`. -/
def c7Env : PrepareEnv :=
  { transactionSubmissions := []
    makerBalance := 100000
    takerBalance := 100000
    signResult := .signed exMakerSig
    priceCheckResponse := none
    saveRejectPriceDeltaOk := true
    recoveredSigner := "0xmakeraddr"
    isValidOrderSigner := false
    rejectDeltaBps := 0
    ethCallOk := true }

/-- The prepared job produced by running preparation on `exJob` in `c7Env`. -/
def c7PreparedJob : RfqmV2JobEntity :=
  { exJob with
    status := .PendingLastLookAccepted
    makerSignature := some (padSignature exMakerSig)
    lastLookResult := some true }

/-- The second-run environment: one transaction submission now exists. -/
def c7Env2 : PrepareEnv :=
  { c7Env with
    transactionSubmissions :=
      [{ transactionHash := some "0xtx1", createdAtMs := 5, nonce := 7, status := .Submitted }] }

/-- C7 witness: after the concrete first run of preparation on `exJob`
succeeds, re-running preparation on the prepared job with a submission on
record returns the identical calldata and job with no effects. -/
theorem prepareV2Job_idempotent_witness :
    prepareV2Job c7PreparedJob c7Env2 2000000 =
      (.ok (generateTakerSignedOtcOrderCallData exOrder (padSignature exMakerSig) exTakerSig
          false none, c7PreparedJob), []) :=
  prepareV2Job_idempotent.1 exJob c7Env 1000000 c7Env2 2000000
    (generateTakerSignedOtcOrderCallData exOrder (padSignature exMakerSig) exTakerSig false none)
    c7PreparedJob
    [.updateJob { exJob with status := .PendingProcessing }, .signRequest,
      .updateJob c7PreparedJob]
    rfl (by simp [c7Env2])

/-! ## C6: a maker decline and the best-effort price re-check -/

/-- C6: when the maker's sign endpoint responds without a signature (a
decline, as opposed to a transport failure), preparation records the job with
status `FailedLastLookDeclined` and `lastLookResult = false` *before* the
decline-to-sign price re-check request is issued, the run throws "Market Maker
declined to sign", and — whatever the price re-check and the delta save do
(every such outcome `env.priceCheckResponse` / `env.saveRejectPriceDeltaOk`
is quantified over) — every database write after the price re-check still
carries status `FailedLastLookDeclined`. -/
theorem prepare_decline_sets_status (job : RfqmV2JobEntity) (env : PrepareEnv) (nowMs : ℕ)
    (o : StoredOtcOrder) (tk : Signature)
    (ho : job.order = some o) (hsub : env.transactionSubmissions = [])
    (hval : validateJob job nowMs = none) (htk : job.takerSignature = some tk)
    (hmk : job.makerSignature = none)
    (hbal : ¬ (env.makerBalance < o.order.makerAmount ∨
      env.takerBalance < o.order.takerAmount))
    (hsig : env.signResult = .declined) :
    (prepareV2Job job env nowMs).1 = .error .declinedToSign ∧
    ∃ effs₁ effs₂ jd,
      (prepareV2Job job env nowMs).2 = effs₁ ++ Effect.priceCheckRequest :: effs₂ ∧
      Effect.updateJob jd ∈ effs₁ ∧
      jd.status = .FailedLastLookDeclined ∧
      jd.lastLookResult = some false ∧
      ∀ j', Effect.updateJob j' ∈ effs₂ → j'.status = .FailedLastLookDeclined := by
  have hmk1 : (statusTransitionJob job).makerSignature = none := by
    rw [statusTransitionJob_makerSignature, hmk]
  constructor
  · simp only [prepareV2Job, ho]
    rw [if_neg (by simp [hsub])]
    simp only [hval, htk, hmk1]
    rw [if_neg hbal]
    simp only [hsig]
  · rcases hpr : env.priceCheckResponse with _ | pr
    · refine ⟨statusTransitionEffects job ++
        [.signRequest,
         .updateJob { statusTransitionJob job with
                      lastLookResult := some false
                      status := .FailedLastLookDeclined }], [],
        { statusTransitionJob job with
          lastLookResult := some false
          status := .FailedLastLookDeclined }, ?_, by simp, rfl, rfl, by simp⟩
      simp only [prepareV2Job, ho]
      rw [if_neg (by simp [hsub])]
      simp only [hval, htk, hmk1]
      rw [if_neg hbal]
      simp only [hsig, hpr]
      simp
    · by_cases hsave : env.saveRejectPriceDeltaOk = true
      · refine ⟨statusTransitionEffects job ++
          [.signRequest,
           .updateJob { statusTransitionJob job with
                        lastLookResult := some false
                        status := .FailedLastLookDeclined }],
          [.updateJob { statusTransitionJob job with
                        lastLookResult := some false
                        status := .FailedLastLookDeclined
                        llRejectPriceDifferenceBps := some env.rejectDeltaBps }],
          { statusTransitionJob job with
            lastLookResult := some false
            status := .FailedLastLookDeclined }, ?_, by simp, rfl, rfl, ?_⟩
        · simp only [prepareV2Job, ho]
          rw [if_neg (by simp [hsub])]
          simp only [hval, htk, hmk1]
          rw [if_neg hbal]
          simp only [hsig, hpr]
          rw [if_pos hsave]
          simp
        · intro j' hj'
          simp only [List.mem_singleton, Effect.updateJob.injEq] at hj'
          rw [hj']
      · refine ⟨statusTransitionEffects job ++
          [.signRequest,
           .updateJob { statusTransitionJob job with
                        lastLookResult := some false
                        status := .FailedLastLookDeclined }], [],
          { statusTransitionJob job with
            lastLookResult := some false
            status := .FailedLastLookDeclined }, ?_, by simp, rfl, rfl, by simp⟩
        simp only [prepareV2Job, ho]
        rw [if_neg (by simp [hsub])]
        simp only [hval, htk, hmk1]
        rw [if_neg hbal]
        simp only [hsig, hpr]
        rw [if_neg hsave]
        simp

/-- A preparation environment in which the maker declines to sign and the
subsequent delta save fails. -/
def c6Env : PrepareEnv :=
  { c7Env with
    signResult := .declined
    priceCheckResponse := some { makerAmount := 4000, takerAmount := 3000 }
    saveRejectPriceDeltaOk := false
    rejectDeltaBps := 2000 }

/-- C6 witness: on the concrete well-formed job `exJob` with the maker
declining, preparation throws "Market Maker declined to sign". -/
theorem prepare_decline_sets_status_witness :
    (prepareV2Job exJob c6Env 1000000).1 = .error .declinedToSign :=
  (prepare_decline_sets_status exJob c6Env 1000000 exOrder exTakerSig rfl rfl rfl rfl rfl
    (by decide) rfl).1

end Rfqm
